import Mathlib

/-!
Verification of the tv-series frontend's client-side asynchronous
orchestration layer (search page, show-detail page, comment form),
shallowly embedded from the TypeScript/React source.

Modelling conventions:
* Each React component's `useState` hooks become the fields of a Lean
  structure; each event handler becomes a function on that structure.
* An `async` handler is split at its `await` points: issuing a request
  appends the data captured at issue time to a `pending` list in the
  state, and the continuation after the `await` becomes a separate
  response event (`ok`/`err`) that the environment may deliver in any
  order, but only for a request that is actually in flight.
* JavaScript strings are modelled by Lean `String`; the JS operations
  `trim`, `length` and `maxLength` truncation are defined below on the
  underlying character list (all concrete inputs used are ASCII, where
  the two agree).
* JS `number` fields are modelled by `Int` for identifiers/counts and
  `Rat` for ratings/scores; no claim depends on floating-point effects.
-/

namespace TvSeries

/-- Drops whitespace characters from both ends of a character list;
the character-list semantics of JavaScript `String.prototype.trim`. -/
def trimChars (cs : List Char) : List Char :=
  ((cs.dropWhile Char.isWhitespace).reverse.dropWhile Char.isWhitespace).reverse

/-- Models JavaScript `s.trim()`. -/
def jsTrim (s : String) : String :=
  ⟨trimChars s.data⟩

/-- Models JavaScript `s.length` (all inputs considered are ASCII). -/
def jsLen (s : String) : Nat :=
  s.data.length

/-- Models the truncation a `maxLength={n}` input control applies to its
value: the field never holds more than `n` characters. -/
def jsTake (s : String) (n : Nat) : String :=
  ⟨s.data.take n⟩

/-- Removes the first occurrence of `a` from the list; used to settle one
in-flight request out of the pending list. -/
def removeFirst {α : Type} [DecidableEq α] : List α → α → List α
  | [], _ => []
  | x :: xs, a => if x = a then xs else x :: removeFirst xs a

/-! ## Data model (src/frontend/src/types/index.ts) -/

/-- Mirrors the `Show` interface. -/
structure TvShow where
  id : Int
  name : String
  summary : Option String
  image_url : Option String
  premiered : Option String
  genres : List String
  rating : Option Rat
  status : Option String
  official_site : Option String
deriving DecidableEq

/-- Mirrors the `SearchResult` interface (`show` renamed to `tvShow`
because `show` is a Lean keyword). -/
structure SearchResult where
  score : Rat
  tvShow : TvShow
deriving DecidableEq

/-- Mirrors the `Episode` interface. -/
structure Episode where
  id : Int
  show_id : Int
  name : String
  season : Int
  number : Int
  summary : Option String
  airdate : Option String
  runtime : Option Int
  image_url : Option String
deriving DecidableEq

/-- Mirrors the `SeasonEpisodes` interface. -/
structure SeasonEpisodes where
  season : Int
  episodes : List Episode
deriving DecidableEq

/-- Mirrors the `ShowDetail` interface (`show` renamed to `tvShow`). -/
structure ShowDetail where
  tvShow : TvShow
  seasons : List SeasonEpisodes
deriving DecidableEq

/-- Mirrors the `Comment` interface. -/
structure Comment where
  id : Int
  content : String
  show_id : Int
  episode_id : Option Int
  created_at : String
deriving DecidableEq

/-- Mirrors the `AIInsight` interface. -/
structure AIInsight where
  content : String
  show_id : Int
  episode_id : Option Int
  generated_at : String
deriving DecidableEq

/-! ## SearchPage (src/frontend/src/types/index.ts lines 103-236) and
SearchBar (src/frontend/src/components/SearchBar.tsx) -/

/-- The `useState` hooks of `SearchPage`, plus `pending`: the queries of
the `searchShows` fetches issued and not yet settled. -/
structure SearchState where
  results : List SearchResult
  isLoading : Bool
  hasSearched : Bool
  error : Option String
  pending : List String
deriving DecidableEq

/-- Initial `SearchPage` state. -/
def searchInit : SearchState :=
  { results := [], isLoading := false, hasSearched := false,
    error := none, pending := [] }

/-- The synchronous prefix of `SearchPage.handleSearch(query)`: the early
return clears results for a blank query; otherwise the loading flags are
set and a `searchShows(query)` request is issued (recorded in
`pending`). The response is delivered later by `SearchEv.ok`/`err`. -/
def handleSearch (s : SearchState) (query : String) : SearchState :=
  if jsTrim query = "" then
    { s with results := [], hasSearched := false }
  else
    { s with isLoading := true, error := none, hasSearched := true,
             pending := s.pending ++ [query] }

/-- Events of the search page: a debounced input value arriving from
`SearchBar`, and the success/failure settlement of one in-flight
`searchShows` request. -/
inductive SearchEv where
  | input (raw : String)
  | ok (query : String) (rs : List SearchResult)
  | err (query : String)
deriving DecidableEq

/-- One step of the search page.

`input raw` models the `SearchBar` debounced `useEffect`: it calls
`onSearch(debouncedQuery.trim())` only when the trimmed value is
nonempty, so a blank input invokes nothing at all.

`ok query rs` models the continuation of `handleSearch` after
`await searchShows(query)` succeeds: `setResults(response.results)` and
(in `finally`) `setIsLoading(false)`. The source applies the response
unconditionally — there is no sequence number or staleness check.

`err query` models the `catch`/`finally` branch. -/
def searchStep (s : SearchState) : SearchEv → SearchState
  | .input raw =>
      if jsTrim raw = "" then s
      else handleSearch s (jsTrim raw)
  | .ok query rs =>
      if query ∈ s.pending then
        { s with results := rs, isLoading := false,
                 pending := removeFirst s.pending query }
      else s
  | .err query =>
      if query ∈ s.pending then
        { s with error := some "Failed to search shows. Please try again.",
                 results := [], isLoading := false,
                 pending := removeFirst s.pending query }
      else s

/-- Runs the search page over a sequence of events. -/
def searchRun (s : SearchState) (evs : List SearchEv) : SearchState :=
  evs.foldl searchStep s

/-- The most recently issued (nonempty after trimming) query of an event
sequence. -/
def lastIssuedQuery (evs : List SearchEv) : Option String :=
  (evs.filterMap fun e =>
    match e with
    | .input raw => if jsTrim raw = "" then none else some (jsTrim raw)
    | _ => none).getLast?

/-- A concrete show used in counterexamples. -/
def showA : TvShow :=
  { id := 1, name := "A", summary := none, image_url := none,
    premiered := none, genres := [], rating := none, status := none,
    official_site := none }

/-- A concrete search result used in counterexamples. -/
def resA : SearchResult := { score := 1, tvShow := showA }

/-! ## ShowDetailPage (src/frontend/src/types/index.ts lines 262-757) -/

/-- The `useState` hooks of `ShowDetailPage`, plus the in-flight request
bookkeeping of its async handlers:

* `pendingEpisodeLoads` — episode ids of `getEpisodeComments` fetches
  issued by `handleViewEpisodeComments` and not yet settled;
* `pendingToggles` — one `(isCurrentlyWatched, episodeId)` pair per
  in-flight mark/unmark request of `handleToggleWatched`, the pair being
  exactly the data its closure captured at call time;
* `pendingInsight` — the number of in-flight `generateInsight` requests
  of `handleGenerateShowInsight`. -/
structure DetailState where
  showData : Option ShowDetail
  watchedEpisodes : Finset Int
  showComments : List Comment
  showInsight : Option AIInsight
  selectedSeason : Option Int
  isLoading : Bool
  isLoadingComments : Bool
  isLoadingInsight : Bool
  error : Option String
  selectedEpisode : Option Episode
  episodeComments : List Comment
  episodeInsight : Option AIInsight
  isLoadingEpisodeComments : Bool
  isLoadingEpisodeInsight : Bool
  pendingEpisodeLoads : List Int
  pendingToggles : List (Bool × Int)
  pendingInsight : Nat
  pendingEpisodeInsight : Nat
deriving DecidableEq

/-- The initial hook values of `ShowDetailPage` (note `isLoading` starts
`true` and `selectedSeason` starts `null`). -/
def detailInit : DetailState :=
  { showData := none, watchedEpisodes := ∅, showComments := [],
    showInsight := none, selectedSeason := none, isLoading := true,
    isLoadingComments := false, isLoadingInsight := false, error := none,
    selectedEpisode := none, episodeComments := [], episodeInsight := none,
    isLoadingEpisodeComments := false, isLoadingEpisodeInsight := false,
    pendingEpisodeLoads := [], pendingToggles := [], pendingInsight := 0,
    pendingEpisodeInsight := 0 }

/-- The `loadShowData` effect body, applied to the settlement of its
`Promise.all([getShowDetails, getWatchedEpisodes, getShowComments])`:
if all three fulfil, every setter runs (show data, watched set, show
comments, and the default season when the season list is nonempty); if
any of the three rejects, `Promise.all` rejects, none of the setters
run, and the `catch` sets the unified error message. `finally` clears
`isLoading` either way. -/
def loadShowData (s : DetailState) (details : Except String ShowDetail)
    (watched : Except String (List Int))
    (comments : Except String (List Comment)) : DetailState :=
  let s0 := { s with isLoading := true, error := none }
  match details, watched, comments with
  | .ok d, .ok w, .ok c =>
      { s0 with
        showData := some d
        watchedEpisodes := w.toFinset
        showComments := c
        selectedSeason :=
          match d.seasons with
          | [] => s0.selectedSeason
          | se :: _ => some se.season
        isLoading := false }
  | _, _, _ =>
      { s0 with
        error := some "Failed to load show details. Please try again."
        isLoading := false }

/-- The three top-level render guards of `ShowDetailPage`. -/
inductive DetailView where
  | loadingView
  | errorView
  | readyView
deriving DecidableEq

/-- Render dispatch of `ShowDetailPage`: the spinner while `isLoading`,
the error screen when `error` is set or `showData` is missing, else the
full detail view. -/
def render (s : DetailState) : DetailView :=
  if s.isLoading then .loadingView
  else if s.error.isSome || s.showData.isNone then .errorView
  else .readyView

/-- Mirrors `seasons.find((s) => s.season === selectedSeason)` (a `null`
`selectedSeason` matches no season). -/
def currentSeason (s : DetailState) : Option SeasonEpisodes :=
  match s.showData with
  | none => none
  | some d => d.seasons.find? fun se => s.selectedSeason = some se.season

/-- The episode list the detail view renders: `currentSeason.episodes`
when a current season exists, nothing otherwise. -/
def episodeList (s : DetailState) : List Episode :=
  match currentSeason s with
  | some se => se.episodes
  | none => []

/-- Events of the show-detail page. Handler starts capture what the
source handler reads synchronously; `...Ok`/`...Err` events deliver the
settlement of one in-flight request, carrying the data the closure
captured at issue time. -/
inductive DetailEv where
  | openEpisode (e : Episode)
  | closeModal
  | episodeCommentsOk (eid : Int) (cs : List Comment)
  | episodeCommentsErr (eid : Int)
  | toggle (eid : Int)
  | toggleOk (wasWatched : Bool) (eid : Int)
  | toggleErr (wasWatched : Bool) (eid : Int)
  | generateClick
  | insightOk (i : AIInsight)
  | insightErr
  | generateEpisodeClick
  | episodeInsightOk (i : AIInsight)
  | episodeInsightErr
deriving DecidableEq

/-- One step of `ShowDetailPage`.

`openEpisode e` is the synchronous prefix of
`handleViewEpisodeComments(e)`: it sets the selected episode, raises the
comments-loading flag, clears the episode insight, and issues
`getEpisodeComments(showId, e.id)`. It does not clear
`episodeComments`, and it attaches no generation tag to the request.

`closeModal` is `handleCloseEpisodeModal`: it clears the selected
episode, the episode comments and the episode insight (an in-flight
load, if any, stays pending).

`episodeCommentsOk`/`Err` are the continuation of
`handleViewEpisodeComments` after the `await`: the response is applied
unconditionally to the current state — nothing checks whether the
session that issued it is still the open one.

`toggle eid` is the synchronous part of `handleToggleWatched`: it reads
`isCurrentlyWatched`, flips membership optimistically, and issues the
mark/unmark request, whose closure captured `(isCurrentlyWatched, eid)`.
`toggleOk` runs no code (no success handler in the source);
`toggleErr` is the `catch`: it restores `eid`'s membership to the
captured pre-call value and issues nothing new.

`generateClick` is a user click on the show-scoped AIInsightPanel
generate or regenerate button: the source renders both with
`disabled={isLoading}`, so a click while `isLoadingInsight` runs no
handler; otherwise `handleGenerate` runs `handleGenerateShowInsight`,
which raises the flag and issues one `generateInsight` request.
`insightOk` stores the returned insight, replacing any previous one;
`insightErr` (the `catch`) leaves the stored insight untouched; both
clear the flag in `finally`.

`generateEpisodeClick`/`episodeInsightOk`/`episodeInsightErr` are the
episode-scoped panel's identically structured counterparts, dispatching
to `handleGenerateEpisodeInsight`, which additionally early-returns
when no episode is selected. -/
def detailStep (s : DetailState) : DetailEv → DetailState
  | .openEpisode e =>
      { s with selectedEpisode := some e,
               isLoadingEpisodeComments := true,
               episodeInsight := none,
               pendingEpisodeLoads := s.pendingEpisodeLoads ++ [e.id] }
  | .closeModal =>
      { s with selectedEpisode := none, episodeComments := [],
               episodeInsight := none }
  | .episodeCommentsOk eid cs =>
      if eid ∈ s.pendingEpisodeLoads then
        { s with episodeComments := cs,
                 isLoadingEpisodeComments := false,
                 pendingEpisodeLoads := removeFirst s.pendingEpisodeLoads eid }
      else s
  | .episodeCommentsErr eid =>
      if eid ∈ s.pendingEpisodeLoads then
        { s with episodeComments := [],
                 isLoadingEpisodeComments := false,
                 pendingEpisodeLoads := removeFirst s.pendingEpisodeLoads eid }
      else s
  | .toggle eid =>
      { s with
        watchedEpisodes :=
          if eid ∈ s.watchedEpisodes then s.watchedEpisodes.erase eid
          else insert eid s.watchedEpisodes
        pendingToggles :=
          s.pendingToggles ++ [(decide (eid ∈ s.watchedEpisodes), eid)] }
  | .toggleOk wasWatched eid =>
      if (wasWatched, eid) ∈ s.pendingToggles then
        { s with pendingToggles := removeFirst s.pendingToggles (wasWatched, eid) }
      else s
  | .toggleErr wasWatched eid =>
      if (wasWatched, eid) ∈ s.pendingToggles then
        { s with
          watchedEpisodes :=
            if wasWatched then insert eid s.watchedEpisodes
            else s.watchedEpisodes.erase eid
          pendingToggles := removeFirst s.pendingToggles (wasWatched, eid) }
      else s
  | .generateClick =>
      if s.isLoadingInsight then s
      else { s with isLoadingInsight := true,
                    pendingInsight := s.pendingInsight + 1 }
  | .insightOk i =>
      if s.pendingInsight ≠ 0 then
        { s with showInsight := some i, isLoadingInsight := false,
                 pendingInsight := s.pendingInsight - 1 }
      else s
  | .insightErr =>
      if s.pendingInsight ≠ 0 then
        { s with isLoadingInsight := false,
                 pendingInsight := s.pendingInsight - 1 }
      else s
  | .generateEpisodeClick =>
      if s.isLoadingEpisodeInsight then s
      else
        match s.selectedEpisode with
        | none => s
        | some _ =>
            { s with isLoadingEpisodeInsight := true,
                     pendingEpisodeInsight := s.pendingEpisodeInsight + 1 }
  | .episodeInsightOk i =>
      if s.pendingEpisodeInsight ≠ 0 then
        { s with episodeInsight := some i, isLoadingEpisodeInsight := false,
                 pendingEpisodeInsight := s.pendingEpisodeInsight - 1 }
      else s
  | .episodeInsightErr =>
      if s.pendingEpisodeInsight ≠ 0 then
        { s with isLoadingEpisodeInsight := false,
                 pendingEpisodeInsight := s.pendingEpisodeInsight - 1 }
      else s

/-- Runs the show-detail page over a sequence of events. -/
def detailRun (s : DetailState) (evs : List DetailEv) : DetailState :=
  evs.foldl detailStep s

/-- Every state the show-detail page passes through while processing an
event sequence (including the initial and final ones). -/
def detailStates (s : DetailState) : List DetailEv → List DetailState
  | [] => [s]
  | e :: rest => s :: detailStates (detailStep s e) rest

/-! ## CommentsSection (src/unnamed/part_000) composed with its parent's
add handler (`handleAddShowComment` / `handleAddEpisodeComment`, which
await `createComment` and prepend the returned comment) -/

/-- The `useState` hooks of one `CommentsSection` instance together with
the parent comment list its `onAddComment` prepends into.
`pendingAdds` holds the contents of in-flight `createComment` requests
(the gate keeps it at length ≤ 1); `issuedAdds` is a specification-only
ghost log of every content ever sent in a request. -/
structure CommentFormState where
  newComment : String
  isSubmitting : Bool
  comments : List Comment
  pendingAdds : List String
  issuedAdds : List String
deriving DecidableEq

/-- Initial comment-form state over an empty parent list. -/
def commentInit : CommentFormState :=
  { newComment := "", isSubmitting := false, comments := [],
    pendingAdds := [], issuedAdds := [] }

/-- Events of the comment form: typing into the textarea, submitting the
form, and the settlement of one in-flight `createComment` request. -/
inductive CommentEv where
  | input (raw : String)
  | submit
  | addOk (c : Comment)
  | addErr
deriving DecidableEq

/-- One step of the comment form.

`input raw` models `onChange` on the textarea: because the control has
`maxLength={2000}`, the value it can deliver is truncated to 2000
characters; there is no other length check anywhere in the source.

`submit` is the synchronous prefix of `handleSubmit`: the guard
`if (!newComment.trim() || isSubmitting) return` rejects blank content
and re-entry; past it, `setIsSubmitting(true)` runs and
`onAddComment(newComment.trim())` issues a `createComment` request with
the trimmed content. Note: no length condition is tested here.

`addOk c` is the continuation after `createComment` fulfils with the
server comment `c`: the parent handler prepends `c` to its list, then
`handleSubmit` clears the textarea and (in `finally`) the submitting
flag. `addErr` is the rejection path: only the `finally` runs — the
list and the textarea are untouched. -/
def commentStep (s : CommentFormState) : CommentEv → CommentFormState
  | .input raw => { s with newComment := jsTake raw 2000 }
  | .submit =>
      if jsTrim s.newComment = "" ∨ s.isSubmitting = true then s
      else
        { s with isSubmitting := true,
                 pendingAdds := s.pendingAdds ++ [jsTrim s.newComment],
                 issuedAdds := s.issuedAdds ++ [jsTrim s.newComment] }
  | .addOk c =>
      match s.pendingAdds with
      | [] => s
      | _ :: rest =>
          { s with comments := c :: s.comments, newComment := "",
                   isSubmitting := false, pendingAdds := rest }
  | .addErr =>
      match s.pendingAdds with
      | [] => s
      | _ :: rest => { s with isSubmitting := false, pendingAdds := rest }

/-- Runs the comment form over a sequence of events. -/
def commentRun (s : CommentFormState) (evs : List CommentEv) : CommentFormState :=
  evs.foldl commentStep s

/-! ## Concrete fixtures used in counterexamples and witnesses -/

/-- True exactly on a fulfilled promise result. -/
def isOkE {α : Type} : Except String α → Bool
  | .ok _ => true
  | .error _ => false

/-- A concrete episode (id 1). -/
def epOne : Episode :=
  { id := 1, show_id := 1, name := "Pilot", season := 1, number := 1,
    summary := none, airdate := none, runtime := none, image_url := none }

/-- A concrete episode (id 2). -/
def epTwo : Episode :=
  { id := 2, show_id := 1, name := "Second", season := 1, number := 2,
    summary := none, airdate := none, runtime := none, image_url := none }

/-- A concrete comment on episode 1. -/
def commentOnEpOne : Comment :=
  { id := 10, content := "great pilot", show_id := 1, episode_id := some 1,
    created_at := "2024-01-01T00:00:00Z" }

/-- A 2001-character comment content, one character over the limit. -/
def longContent : String :=
  ⟨List.replicate 2001 'a'⟩

/-- A concrete show detail with no seasons. -/
def detailNoSeasons : ShowDetail :=
  { tvShow := showA, seasons := [] }

/-- A concrete show detail whose first season is season 3. -/
def detailSeasonThree : ShowDetail :=
  { tvShow := showA, seasons := [{ season := 3, episodes := [epOne] }] }

/-! ## Helper lemmas -/

/-- Trimming never lengthens a character list. -/
theorem trimChars_length_le (l : List Char) : (trimChars l).length ≤ l.length := by
  unfold trimChars
  calc (((l.dropWhile Char.isWhitespace).reverse.dropWhile
          Char.isWhitespace).reverse).length
      = ((l.dropWhile Char.isWhitespace).reverse.dropWhile
          Char.isWhitespace).length := List.length_reverse _
    _ ≤ (l.dropWhile Char.isWhitespace).reverse.length :=
        (List.dropWhile_sublist _).length_le
    _ = (l.dropWhile Char.isWhitespace).length := List.length_reverse _
    _ ≤ l.length := (List.dropWhile_sublist _).length_le

/-- A string equals the empty string iff its character list is empty. -/
theorem eq_empty_iff_data_nil (s : String) : s = "" ↔ s.data = [] := by
  rw [String.ext_iff]

/-- Trimming a run of one non-whitespace character changes nothing:
`dropWhile` stops at its first element from either end. -/
theorem trimChars_replicate (n : Nat) (c : Char)
    (h : Char.isWhitespace c = false) :
    trimChars (List.replicate n c) = List.replicate n c := by
  have hdrop : ∀ m : Nat,
      (List.replicate m c).dropWhile Char.isWhitespace = List.replicate m c := by
    intro m
    cases m with
    | zero => rfl
    | succ k => rw [List.replicate_succ, List.dropWhile_cons, h]; simp
  unfold trimChars
  rw [hdrop, List.reverse_replicate, hdrop, List.reverse_replicate]

/-- Settling the request appended last leaves as many pending requests
as there were before it was issued. -/
theorem removeFirst_append_self {α : Type} [DecidableEq α] (l : List α) (a : α) :
    (removeFirst (l ++ [a]) a).length = l.length := by
  induction l with
  | nil => simp [removeFirst]
  | cons x xs ih => by_cases h : x = a <;> simp [removeFirst, h, ih]

/-- A submit whose content is nonempty after trimming and with no add in
flight passes the guard and issues a `createComment` request carrying
the trimmed content. -/
theorem commentStep_submit_sends (s : CommentFormState)
    (h1 : jsTrim s.newComment ≠ "") (h2 : s.isSubmitting = false) :
    commentStep s .submit
      = { s with isSubmitting := true,
                 pendingAdds := s.pendingAdds ++ [jsTrim s.newComment],
                 issuedAdds := s.issuedAdds ++ [jsTrim s.newComment] } := by
  have hcond : ¬(jsTrim s.newComment = "" ∨ s.isSubmitting = true) := by
    rintro (hc | hc)
    · exact h1 hc
    · rw [h2] at hc
      cases hc
  simp [commentStep, hcond]

/-! ## C1 and C8: search ordering and empty-input behaviour -/

/-- C1 counterexample: issue Q1, then Q2; Q2's (empty) response arrives
first, then Q1's stale response. The source applies responses
unconditionally, so the displayed result set ends up being Q1's even
though Q2 is the most recently issued query — the stale response is not
discarded, refuting the claim that the display always reflects the most
recently issued query regardless of response arrival order. -/
theorem search_stale_response_displayed_cex :
    lastIssuedQuery
        [SearchEv.input "Q1", .input "Q2", .ok "Q2" [], .ok "Q1" [resA]]
      = some "Q2"
    ∧ (searchRun searchInit
        [.input "Q1", .input "Q2", .ok "Q2" [], .ok "Q1" [resA]]).results
      = [resA]
    ∧ [resA] ≠ ([] : List SearchResult) := by
  decide

/-- C1 (amended): when the two responses arrive in the order their
queries were issued, the displayed result set does correspond to the
most recently issued query. (The inputs are quantified over
already-trimmed nonempty queries, which is exactly what the SearchBar
debounce effect delivers to `handleSearch`.) The unamended claim — that
this holds regardless of response arrival order — is refuted by
`search_stale_response_displayed_cex`. -/
theorem search_results_match_last_query_fifo (t1 t2 : String)
    (rs1 rs2 : List SearchResult)
    (e1 : jsTrim t1 = t1) (e2 : jsTrim t2 = t2)
    (n1 : t1 ≠ "") (n2 : t2 ≠ "") :
    (searchRun searchInit
        [.input t1, .input t2, .ok t1 rs1, .ok t2 rs2]).results = rs2
    ∧ lastIssuedQuery [SearchEv.input t1, .input t2, .ok t1 rs1, .ok t2 rs2]
      = some t2 := by
  simp [searchRun, searchStep, handleSearch, searchInit, lastIssuedQuery,
    removeFirst, e1, e2, n1, n2]

/-- Witness for `search_results_match_last_query_fifo` at concrete
queries and results. -/
theorem search_results_match_last_query_fifo_witness :
    (searchRun searchInit
        [.input "Q1", .input "Q2", .ok "Q1" [resA], .ok "Q2" []]).results = []
    ∧ lastIssuedQuery
        [SearchEv.input "Q1", .input "Q2", .ok "Q1" [resA], .ok "Q2" []]
      = some "Q2" :=
  search_results_match_last_query_fifo "Q1" "Q2" [resA] []
    (by decide) (by decide) (by decide) (by decide)

/-- C8 counterexample: after a successful search for "foo", the user
clears the input. The SearchBar effect guards
`if (debouncedQuery.trim())` and never invokes `onSearch` for blank
input, so `handleSearch`'s clearing branch is unreachable from the
debounced path: the previously displayed results remain, refuting the
claim that blank input clears any displayed results. -/
theorem empty_search_leaves_results_cex :
    (searchRun searchInit [.input "foo", .ok "foo" [resA], .input "   "]).results
      = [resA]
    ∧ [resA] ≠ ([] : List SearchResult) := by
  decide

/-- C8 (amended): blank (empty after trimming) input emits no search
request and leaves the whole search state — including any displayed
results — unchanged. (The `handleSearch` early-return branch would
clear results and issue nothing, but the SearchBar effect never calls
it with blank input; the clearing half of the original claim is refuted
by `empty_search_leaves_results_cex`.) -/
theorem empty_search_input_no_request (s : SearchState) (raw : String)
    (h : jsTrim raw = "") :
    searchStep s (.input raw) = s
    ∧ (handleSearch s raw).pending = s.pending
    ∧ (handleSearch s raw).results = [] := by
  refine ⟨?_, ?_, ?_⟩ <;> simp [searchStep, handleSearch, h]

/-- Witness for `empty_search_input_no_request` at a concrete state and
whitespace input. -/
theorem empty_search_input_no_request_witness :
    searchStep searchInit (.input "  ") = searchInit
    ∧ (handleSearch searchInit "  ").pending = searchInit.pending
    ∧ (handleSearch searchInit "  ").results = [] :=
  empty_search_input_no_request searchInit "  " (by decide)

/-! ## C2 and C10: episode modal sessions -/

/-- C2 counterexample: open episode 1 (its comments load stays pending),
close the modal, open episode 2; episode 2's response arrives, then
episode 1's late response. `handleViewEpisodeComments` applies its
response with no session/generation check, so episode 1's comments are
written into — and displayed in (the loading flag is already cleared) —
episode 2's open session: the late response against the discarded
session is not detected and dropped, refuting the claim. -/
theorem episode_modal_late_response_applied_cex :
    (detailRun detailInit
        [.openEpisode epOne, .closeModal, .openEpisode epTwo,
         .episodeCommentsOk 2 [], .episodeCommentsOk 1 [commentOnEpOne]]).selectedEpisode
      = some epTwo
    ∧ (detailRun detailInit
        [.openEpisode epOne, .closeModal, .openEpisode epTwo,
         .episodeCommentsOk 2 [], .episodeCommentsOk 1 [commentOnEpOne]]).episodeComments
      = [commentOnEpOne]
    ∧ (detailRun detailInit
        [.openEpisode epOne, .closeModal, .openEpisode epTwo,
         .episodeCommentsOk 2 [], .episodeCommentsOk 1 [commentOnEpOne]]).isLoadingEpisodeComments
      = false
    ∧ [commentOnEpOne] ≠ ([] : List Comment) := by
  decide

/-- C2 (amended): when episode A's comments load settles while A's
session is still the open one (so nothing of A's is pending when the
modal closes), closing clears the episode comment and insight state and
episode A's comments never appear while episode B's session is open:
every state of the run whose selected episode is B carries either the
cleared list or B's own response. The unamended claim — that a late
response landing after A's session was discarded is also detected and
dropped — is refuted by `episode_modal_late_response_applied_cex`. -/
theorem episode_modal_settled_session_isolated (epA epB : Episode)
    (cA cB : List Comment) (hne : epA ≠ epB) :
    ∀ st ∈ detailStates detailInit
        [.openEpisode epA, .episodeCommentsOk epA.id cA, .closeModal,
         .openEpisode epB, .episodeCommentsOk epB.id cB],
      st.selectedEpisode = some epB →
      st.episodeComments = [] ∨ st.episodeComments = cB := by
  intro st hst hsel
  simp only [detailStates, detailStep, detailInit, removeFirst,
    List.nil_append, List.mem_singleton, List.mem_cons, if_pos,
    List.not_mem_nil, or_false] at hst
  rcases hst with rfl | rfl | rfl | rfl | rfl | rfl <;> simp_all

/-- Witness for `episode_modal_settled_session_isolated`: the in-order
run at concrete episodes, inspected at the state right after episode 2
is opened. -/
theorem episode_modal_settled_session_isolated_witness :
    (detailRun detailInit
        [.openEpisode epOne, .episodeCommentsOk 1 [commentOnEpOne],
         .closeModal, .openEpisode epTwo]).episodeComments = []
    ∨ (detailRun detailInit
        [.openEpisode epOne, .episodeCommentsOk 1 [commentOnEpOne],
         .closeModal, .openEpisode epTwo]).episodeComments = [] :=
  episode_modal_settled_session_isolated epOne epTwo [commentOnEpOne] []
    (by decide)
    (detailRun detailInit
      [.openEpisode epOne, .episodeCommentsOk 1 [commentOnEpOne],
       .closeModal, .openEpisode epTwo])
    (by decide) (by decide)

/-- C10: when the episode-comments load issued on opening the modal
fails, the `catch` sets the episode comment list to empty and the
`finally` clears the loading flag; the selected episode, the whole-view
`error` state, and the rendered top-level view are untouched — the
failure stays local to the modal. -/
theorem episode_comments_load_failure_local (s : DetailState) (eid : Int)
    (h : eid ∈ s.pendingEpisodeLoads) :
    (detailStep s (.episodeCommentsErr eid)).episodeComments = []
    ∧ (detailStep s (.episodeCommentsErr eid)).isLoadingEpisodeComments = false
    ∧ (detailStep s (.episodeCommentsErr eid)).selectedEpisode = s.selectedEpisode
    ∧ (detailStep s (.episodeCommentsErr eid)).error = s.error
    ∧ render (detailStep s (.episodeCommentsErr eid)) = render s := by
  simp [detailStep, h, render]

/-- Witness for `episode_comments_load_failure_local`: episode 1's load
fails right after its modal is opened. -/
theorem episode_comments_load_failure_local_witness :
    (detailStep (detailStep detailInit (.openEpisode epOne))
        (.episodeCommentsErr 1)).episodeComments = []
    ∧ (detailStep (detailStep detailInit (.openEpisode epOne))
        (.episodeCommentsErr 1)).isLoadingEpisodeComments = false
    ∧ (detailStep (detailStep detailInit (.openEpisode epOne))
        (.episodeCommentsErr 1)).selectedEpisode
      = (detailStep detailInit (.openEpisode epOne)).selectedEpisode
    ∧ (detailStep (detailStep detailInit (.openEpisode epOne))
        (.episodeCommentsErr 1)).error
      = (detailStep detailInit (.openEpisode epOne)).error
    ∧ render (detailStep (detailStep detailInit (.openEpisode epOne))
        (.episodeCommentsErr 1))
      = render (detailStep detailInit (.openEpisode epOne)) :=
  episode_comments_load_failure_local
    (detailStep detailInit (.openEpisode epOne)) 1 (by decide)

/-! ## C5: optimistic watched toggle with rollback -/

/-- C5: `toggle(eid)` flips `eid`'s membership in the local watched set
immediately, with the mark/unmark request (carrying the captured
pre-call membership) issued in the same step — i.e. before any response
settles. If that request later fails, the `catch` restores the watched
set exactly to its pre-call value and issues nothing new (the pending
count returns to its pre-call value: no automatic retry); if it
succeeds, the watched set is left exactly as the optimistic update made
it. -/
theorem toggle_watched_optimistic_rollback (s : DetailState) (eid : Int) :
    (eid ∈ (detailStep s (.toggle eid)).watchedEpisodes
      ↔ eid ∉ s.watchedEpisodes)
    ∧ (detailStep s (.toggle eid)).pendingToggles
      = s.pendingToggles ++ [(decide (eid ∈ s.watchedEpisodes), eid)]
    ∧ (detailStep (detailStep s (.toggle eid))
        (.toggleErr (decide (eid ∈ s.watchedEpisodes)) eid)).watchedEpisodes
      = s.watchedEpisodes
    ∧ (detailStep (detailStep s (.toggle eid))
        (.toggleErr (decide (eid ∈ s.watchedEpisodes)) eid)).pendingToggles.length
      = s.pendingToggles.length
    ∧ (detailStep (detailStep s (.toggle eid))
        (.toggleOk (decide (eid ∈ s.watchedEpisodes)) eid)).watchedEpisodes
      = (detailStep s (.toggle eid)).watchedEpisodes
    ∧ (detailStep (detailStep s (.toggle eid))
        (.toggleOk (decide (eid ∈ s.watchedEpisodes)) eid)).pendingToggles.length
      = s.pendingToggles.length := by
  by_cases h : eid ∈ s.watchedEpisodes <;>
    simp [detailStep, h, removeFirst_append_self, Finset.insert_erase,
      Finset.erase_insert, Finset.not_mem_erase, Finset.mem_insert_self]

/-! ## C3: at most one insight generation in flight -/

/-- C3: for both insight sessions, a click on the generate/regenerate
button while no generation is in flight raises the loading flag and
issues exactly one `generateInsight` request; an immediately following
second click is a no-op (the source renders the button with
`disabled={isLoading}`, so no handler runs), leaving exactly one
request in flight. Once the pending call settles, the loading flag is
cleared, the returned insight unconditionally replaces the stored one,
and a further click issues a request again. The first block covers the
show-scoped session, the second the episode-scoped one (whose handler
also requires a selected episode). -/
theorem insight_generate_single_flight (s : DetailState) (i : AIInsight)
    (h : s.isLoadingInsight = false) :
    ((detailStep s .generateClick).pendingInsight = s.pendingInsight + 1
    ∧ detailStep (detailStep s .generateClick) .generateClick
      = detailStep s .generateClick
    ∧ (detailStep (detailStep s .generateClick) (.insightOk i)).showInsight
      = some i
    ∧ (detailStep (detailStep s .generateClick) (.insightOk i)).isLoadingInsight
      = false
    ∧ (detailStep (detailStep (detailStep s .generateClick) (.insightOk i))
        .generateClick).pendingInsight = s.pendingInsight + 1)
    ∧ (∀ e : Episode, s.isLoadingEpisodeInsight = false →
      s.selectedEpisode = some e →
      (detailStep s .generateEpisodeClick).pendingEpisodeInsight
        = s.pendingEpisodeInsight + 1
      ∧ detailStep (detailStep s .generateEpisodeClick) .generateEpisodeClick
        = detailStep s .generateEpisodeClick
      ∧ (detailStep (detailStep s .generateEpisodeClick)
          (.episodeInsightOk i)).episodeInsight = some i
      ∧ (detailStep (detailStep s .generateEpisodeClick)
          (.episodeInsightOk i)).isLoadingEpisodeInsight = false) := by
  refine ⟨by simp [detailStep, h], ?_⟩
  intro e hE hsel
  simp [detailStep, hE, hsel]

/-- Witness for `insight_generate_single_flight` at a state with the
episode-1 modal open and a concrete insight. -/
theorem insight_generate_single_flight_witness :
    ((detailStep (detailStep detailInit (.openEpisode epOne))
        .generateClick).pendingInsight
      = (detailStep detailInit (.openEpisode epOne)).pendingInsight + 1)
    ∧ (detailStep (detailStep (detailStep detailInit (.openEpisode epOne))
        .generateEpisodeClick)
        (.episodeInsightOk ⟨"themes", 1, some 1, "2024-01-01"⟩)).episodeInsight
      = some ⟨"themes", 1, some 1, "2024-01-01"⟩ := by
  have h := insight_generate_single_flight
    (detailStep detailInit (.openEpisode epOne))
    ⟨"themes", 1, some 1, "2024-01-01"⟩ (by decide)
  exact ⟨h.1.1, (h.2 epOne (by decide) (by decide)).2.2.1⟩

/-! ## C6 and C7: activation loads and default season -/

/-- C6: the activation effect awaits
`Promise.all([getShowDetails, getWatchedEpisodes, getShowComments])`.
When all three fulfil, every piece of state is populated and the detail
view renders. When any single one rejects, `Promise.all` rejects: none
of the content setters run (show data, watched set and comment list
keep their prior values — in particular `showData` stays absent on a
fresh activation), the unified error message is set, and the render
guards show the error view, never partial detail content. -/
theorem detail_load_all_or_error (s : DetailState)
    (d : Except String ShowDetail) (w : Except String (List Int))
    (c : Except String (List Comment)) :
    (∀ dv wv cv, d = .ok dv → w = .ok wv → c = .ok cv →
      render (loadShowData s d w c) = .readyView
      ∧ (loadShowData s d w c).showData = some dv
      ∧ (loadShowData s d w c).showComments = cv
      ∧ (loadShowData s d w c).watchedEpisodes = wv.toFinset
      ∧ (loadShowData s d w c).error = none)
    ∧ ((isOkE d = false ∨ isOkE w = false ∨ isOkE c = false) →
      render (loadShowData s d w c) = .errorView
      ∧ (loadShowData s d w c).showData = s.showData
      ∧ (loadShowData s d w c).showComments = s.showComments
      ∧ (loadShowData s d w c).watchedEpisodes = s.watchedEpisodes
      ∧ (loadShowData s d w c).selectedSeason = s.selectedSeason) := by
  constructor
  · rintro dv wv cv rfl rfl rfl
    simp [loadShowData, render]
  · intro hfail
    rcases d with dv | de <;> rcases w with wv | we <;> rcases c with cv | ce <;>
      simp_all [loadShowData, render, isOkE]

/-- Witness for `detail_load_all_or_error`: an all-fulfilled activation
and one where the comments load fails, at concrete data. -/
theorem detail_load_all_or_error_witness :
    (render (loadShowData detailInit (.ok detailNoSeasons) (.ok [])
        (.ok [])) = .readyView
      ∧ (loadShowData detailInit (.ok detailNoSeasons) (.ok [])
          (.ok [])).showData = some detailNoSeasons)
    ∧ (render (loadShowData detailInit (.ok detailNoSeasons) (.ok [])
        (.error "network unreachable")) = .errorView
      ∧ (loadShowData detailInit (.ok detailNoSeasons) (.ok [])
          (.error "network unreachable")).showData = detailInit.showData) := by
  have hok := (detail_load_all_or_error detailInit (.ok detailNoSeasons)
    (.ok []) (.ok [])).1 detailNoSeasons [] [] rfl rfl rfl
  have herr := (detail_load_all_or_error detailInit (.ok detailNoSeasons)
    (.ok []) (.error "network unreachable")).2 (by decide)
  exact ⟨⟨hok.1, hok.2.1⟩, ⟨herr.1, herr.2.1⟩⟩

/-- C7: on a fully successful activation, the first season of the
returned season list becomes the default selected season; with an empty
season list the view still reaches the ready state with no error, no
selected season (it keeps its initial `null`) and an empty rendered
episode list. -/
theorem default_season_selection (dv : ShowDetail) (wv : List Int)
    (cv : List Comment) :
    (dv.seasons = [] →
      render (loadShowData detailInit (.ok dv) (.ok wv) (.ok cv)) = .readyView
      ∧ (loadShowData detailInit (.ok dv) (.ok wv) (.ok cv)).selectedSeason = none
      ∧ episodeList (loadShowData detailInit (.ok dv) (.ok wv) (.ok cv)) = []
      ∧ (loadShowData detailInit (.ok dv) (.ok wv) (.ok cv)).error = none)
    ∧ ∀ se rest, dv.seasons = se :: rest →
      (loadShowData detailInit (.ok dv) (.ok wv) (.ok cv)).selectedSeason
        = some se.season := by
  constructor
  · intro h
    simp [loadShowData, render, episodeList, currentSeason, detailInit, h]
  · intro se rest h
    simp [loadShowData, h]

/-- Witness for `default_season_selection`: a show with no seasons and a
show whose first season is season 3. -/
theorem default_season_selection_witness :
    (render (loadShowData detailInit (.ok detailNoSeasons) (.ok []) (.ok []))
        = .readyView
      ∧ (loadShowData detailInit (.ok detailNoSeasons) (.ok [])
          (.ok [])).selectedSeason = none
      ∧ episodeList (loadShowData detailInit (.ok detailNoSeasons) (.ok [])
          (.ok [])) = []
      ∧ (loadShowData detailInit (.ok detailNoSeasons) (.ok [])
          (.ok [])).error = none)
    ∧ (loadShowData detailInit (.ok detailSeasonThree) (.ok [])
        (.ok [])).selectedSeason = some 3 := by
  have h1 := (default_season_selection detailNoSeasons [] []).1 rfl
  have h2 := (default_season_selection detailSeasonThree [] []).2
    { season := 3, episodes := [epOne] } [] rfl
  exact ⟨h1, h2⟩

/-! ## C4 and C9: comment creation -/

/-- C4 counterexample: the user enters a 2001-character comment and
submits. The textarea's `maxLength` silently truncates the content to
2000 characters — `handleSubmit` itself has no length check — and the
submit issues a `createComment` request with the truncated content, so
over-length input is truncated and sent, not rejected with no request
as claimed. -/
theorem comment_overlength_submit_cex :
    jsLen longContent = 2001
    ∧ (commentRun commentInit [.input longContent, .submit]).issuedAdds.length
      = 1
    ∧ (commentRun commentInit [.input longContent, .submit]).issuedAdds
      = [⟨List.replicate 2000 'a'⟩]
    ∧ (commentRun commentInit
        [.input longContent, .submit, .addOk commentOnEpOne]).comments
      = [commentOnEpOne] := by
  have htrim : jsTrim (⟨List.replicate 2000 'a'⟩ : String)
      = ⟨List.replicate 2000 'a'⟩ := by
    show (⟨trimChars (List.replicate 2000 'a')⟩ : String)
      = ⟨List.replicate 2000 'a'⟩
    rw [trimChars_replicate 2000 'a' (by decide)]
  have hne : jsTrim (⟨List.replicate 2000 'a'⟩ : String) ≠ "" := by
    rw [htrim]
    intro h
    rw [eq_empty_iff_data_nil] at h
    have h2 : List.replicate 2000 'a' = [] := h
    have h3 := congrArg List.length h2
    rw [List.length_replicate] at h3
    simp only [List.length_nil] at h3
    omega
  have hs1 : commentStep commentInit (.input longContent)
      = { commentInit with newComment := ⟨List.replicate 2000 'a'⟩ } := by
    show ({ commentInit with newComment := jsTake longContent 2000 }
        : CommentFormState) = _
    have htake : jsTake longContent 2000 = (⟨List.replicate 2000 'a'⟩ : String) := by
      show (⟨(List.replicate 2001 'a').take 2000⟩ : String) = _
      rw [List.take_replicate, min_eq_left (by omega : (2000 : Nat) ≤ 2001)]
    rw [htake]
  have hs2 : commentStep { commentInit with
        newComment := (⟨List.replicate 2000 'a'⟩ : String) } .submit
      = { newComment := ⟨List.replicate 2000 'a'⟩, isSubmitting := true,
          comments := [], pendingAdds := [⟨List.replicate 2000 'a'⟩],
          issuedAdds := [⟨List.replicate 2000 'a'⟩] } := by
    refine (commentStep_submit_sends { commentInit with
      newComment := (⟨List.replicate 2000 'a'⟩ : String) } hne rfl).trans ?_
    show ({ newComment := (⟨List.replicate 2000 'a'⟩ : String),
            isSubmitting := true, comments := [],
            pendingAdds := [] ++ [jsTrim ⟨List.replicate 2000 'a'⟩],
            issuedAdds := [] ++ [jsTrim ⟨List.replicate 2000 'a'⟩] }
        : CommentFormState) = _
    rw [htrim]
    rfl
  have hrun : commentRun commentInit [.input longContent, .submit]
      = { newComment := ⟨List.replicate 2000 'a'⟩, isSubmitting := true,
          comments := [], pendingAdds := [⟨List.replicate 2000 'a'⟩],
          issuedAdds := [⟨List.replicate 2000 'a'⟩] } := by
    unfold commentRun
    rw [List.foldl_cons, List.foldl_cons, List.foldl_nil, hs1, hs2]
  refine ⟨?_, ?_, ?_, ?_⟩
  · show (List.replicate 2001 'a').length = 2001
    exact List.length_replicate 2001 'a'
  · rw [hrun]
    rfl
  · rw [hrun]
  · unfold commentRun
    rw [List.foldl_cons, List.foldl_cons, List.foldl_cons, List.foldl_nil,
      hs1, hs2]
    rfl

/-- Content stays within 2000 characters and issued request contents
stay nonempty and within 2000 characters, across any single step. -/
theorem commentStep_bounds (s : CommentFormState) (e : CommentEv)
    (h1 : s.newComment.data.length ≤ 2000)
    (h2 : ∀ p ∈ s.issuedAdds, p ≠ "" ∧ p.data.length ≤ 2000) :
    (commentStep s e).newComment.data.length ≤ 2000
    ∧ ∀ p ∈ (commentStep s e).issuedAdds, p ≠ "" ∧ p.data.length ≤ 2000 := by
  cases e with
  | input raw =>
      refine ⟨?_, h2⟩
      simp [commentStep, jsTake, List.length_take]
  | submit =>
      by_cases hg : jsTrim s.newComment = "" ∨ s.isSubmitting = true
      · simpa [commentStep, hg] using ⟨h1, h2⟩
      · push_neg at hg
        refine ⟨by simpa [commentStep, hg.1, hg.2] using h1, ?_⟩
        intro p hp
        simp [commentStep, hg.1, hg.2] at hp
        rcases hp with hp | rfl
        · exact h2 p hp
        · exact ⟨hg.1, le_trans (trimChars_length_le s.newComment.data) h1⟩
  | addOk c =>
      cases hp : s.pendingAdds with
      | nil => simpa [commentStep, hp] using ⟨h1, h2⟩
      | cons x rest => simpa [commentStep, hp] using h2
  | addErr =>
      cases hp : s.pendingAdds with
      | nil => simpa [commentStep, hp] using ⟨h1, h2⟩
      | cons x rest => simpa [commentStep, hp] using ⟨h1, h2⟩

/-- The bounds of `commentStep_bounds`, propagated along a whole run. -/
theorem commentRun_bounds (evs : List CommentEv) :
    ∀ s : CommentFormState, s.newComment.data.length ≤ 2000 →
      (∀ p ∈ s.issuedAdds, p ≠ "" ∧ p.data.length ≤ 2000) →
      (commentRun s evs).newComment.data.length ≤ 2000
      ∧ ∀ p ∈ (commentRun s evs).issuedAdds, p ≠ "" ∧ p.data.length ≤ 2000 := by
  induction evs with
  | nil => intro s h1 h2; exact ⟨h1, h2⟩
  | cons e rest ih =>
      intro s h1 h2
      have hs := commentStep_bounds s e h1 h2
      simpa [commentRun, List.foldl_cons] using ih (commentStep s e) hs.1 hs.2

/-- C4 (amended): content that is empty after trimming is rejected by
the submit guard locally — the whole state, in particular the comment
list and the set of issued requests, is unchanged and no network call
happens. Over-length content, however, is not rejected: the input
boundary (`maxLength`) truncates it to 2000 characters, so every
`createComment` request ever issued carries content that is nonempty
and at most 2000 characters — but a request is still issued for
over-length input (see `comment_overlength_submit_cex`, which refutes
the original claim). -/
theorem comment_add_validation_amended :
    (∀ s : CommentFormState, jsTrim s.newComment = "" →
      commentStep s .submit = s)
    ∧ ∀ evs : List CommentEv, ∀ p ∈ (commentRun commentInit evs).issuedAdds,
      p ≠ "" ∧ p.data.length ≤ 2000 := by
  constructor
  · intro s h
    simp [commentStep, h]
  · intro evs
    exact (commentRun_bounds evs commentInit (by decide) (by simp [commentInit])).2

/-- Witness for `comment_add_validation_amended`: a whitespace-only
submission is a no-op, and the single request issued by a trimmed
"hi" submission is nonempty and within bounds. -/
theorem comment_add_validation_amended_witness :
    commentStep { commentInit with newComment := "   " } .submit
      = { commentInit with newComment := "   " }
    ∧ ("hi" ≠ "" ∧ "hi".data.length ≤ 2000) :=
  ⟨comment_add_validation_amended.1 { commentInit with newComment := "   " }
      (by decide),
   comment_add_validation_amended.2 [.input " hi ", .submit] "hi" (by decide)⟩

/-- C9: the local comment list is only ever extended by the settlement
of a `createComment` request — typing, submitting (which issues the
request) and a failed request leave it untouched — and a successful
request prepends exactly the server-returned comment to the front, with
the rest of the list unchanged and in its previous order. The same
`CommentsSection`/parent pair is instantiated for the show list
(`handleAddShowComment`) and the episode list
(`handleAddEpisodeComment`), both of which run
`setComments((prev) => [comment, ...prev])`. -/
theorem comment_add_prepend_server_confirmed (s : CommentFormState)
    (c : Comment) (raw : String) :
    (commentStep s (.input raw)).comments = s.comments
    ∧ (commentStep s .submit).comments = s.comments
    ∧ (commentStep s .addErr).comments = s.comments
    ∧ (s.pendingAdds ≠ [] →
        (commentStep s (.addOk c)).comments = c :: s.comments) := by
  refine ⟨rfl, ?_, ?_, ?_⟩
  · by_cases hg : jsTrim s.newComment = "" ∨ s.isSubmitting = true <;>
      simp [commentStep, hg]
  · cases hp : s.pendingAdds <;> simp [commentStep, hp]
  · intro h
    cases hp : s.pendingAdds with
    | nil => exact absurd hp h
    | cons x rest => simp [commentStep, hp]

/-- Witness for `comment_add_prepend_server_confirmed` at a state with
one in-flight add. -/
theorem comment_add_prepend_server_confirmed_witness :
    (commentStep (commentRun commentInit [.input " hi ", .submit])
        (.input "x")).comments
      = (commentRun commentInit [.input " hi ", .submit]).comments
    ∧ (commentStep (commentRun commentInit [.input " hi ", .submit])
        (.addOk commentOnEpOne)).comments
      = commentOnEpOne :: (commentRun commentInit [.input " hi ", .submit]).comments := by
  have h := comment_add_prepend_server_confirmed
    (commentRun commentInit [.input " hi ", .submit]) commentOnEpOne "x"
  exact ⟨h.1, h.2.2.2 (by decide)⟩

end TvSeries
